import Mathlib

/-!
Verification of the Cilium egress gateway policy engine specification.

The first part is a shallow embedding of the egress gateway control-plane
logic (selector resolution, gateway assignment, egress IP resolution, CIDR
matching, and the per-node installed-entry table).  The engine's Go
implementation is not part of this source tree (only its documentation is),
so these definitions are modelled from the specification, as their doc
comments record.

The second part embeds two functions of the connectivity-test harness,
`Test.WithFeatureRequirements` and the excluded-CIDR construction of
`Test.WithCiliumEgressGatewayPolicy`, from
`cilium-cli/connectivity/check/test.go`.
-/

namespace EgressGateway

/-- Labels of a pod or node: key/value pairs. -/
abbrev Labels := List (String × String)

/-- Modelled from the spec: a typed selector evaluator over explicit label
mappings with match operators equals / in / not-in (spec sections 4.1 and 9). -/
inductive LabelReq
  | eqv (key val : String)
  | inSet (key : String) (vals : List String)
  | notIn (key : String) (vals : List String)
deriving DecidableEq

/-- Look up the value of a label key. -/
def getLabel (ls : Labels) (k : String) : Option String :=
  (ls.find? (fun kv => kv.1 == k)).map (fun kv => kv.2)

/-- Modelled from the spec: whether one selector requirement holds for a label set. -/
def reqHolds (ls : Labels) : LabelReq → Bool
  | .eqv k v => getLabel ls k == some v
  | .inSet k vs => (getLabel ls k).elim false (fun v => vs.contains v)
  | .notIn k vs => (getLabel ls k).elim true (fun v => !vs.contains v)

/-- A selector is a conjunction of label requirements. -/
abbrev Selector := List LabelReq

/-- Modelled from the spec: a selector matches a label set when every
requirement holds. -/
def matchesSelector (sel : Selector) (ls : Labels) : Bool :=
  sel.all (reqHolds ls)

/-- A CIDR: an address width (32 for IPv4, 128 for IPv6), a network address
and a mask length (spec glossary). -/
structure CIDR where
  width : Nat
  addr : Nat
  maskLen : Nat
deriving DecidableEq

/-- Modelled from the spec: a CIDR covers an address when the address agrees
with the network address on the first `maskLen` bits. -/
def CIDR.covers (c : CIDR) (d : Nat) : Bool :=
  d / 2 ^ (c.width - c.maskLen) == c.addr / 2 ^ (c.width - c.maskLen)

/-- A network interface of a gateway node: its name and its IPv4 and IPv6
addresses, in configuration order. -/
structure Iface where
  name : String
  v4 : List Nat
  v6 : List Nat
deriving DecidableEq

/-- Modelled from the spec: a gateway node has a name, labels, per-interface
IP addresses, the interface associated with the default route, and an
internal node IP (spec section 3, data model). -/
structure GatewayNode where
  name : String
  labels : Labels
  interfaces : List Iface
  defaultRouteIface : String
  internalIP : Nat
deriving DecidableEq

/-- Modelled from the spec: a gateway specification is a node selector plus
optionally an explicit egress IP or an explicit interface name
(spec section 3, data model). -/
structure GatewaySpec where
  nodeSelector : Selector
  egressIP : Option Nat
  interface : Option String
deriving DecidableEq

/-- One selector entry of a policy: a pod selector AND an optional node
selector (spec section 3). -/
structure SelectorEntry where
  podSelector : Selector
  nodeSelector : Option Selector

/-- Modelled from the spec: a policy with selector entries, destination
CIDRs, excluded CIDRs, and an ordered list of gateway specifications
(a single `egressGateway` field is the singleton list). -/
structure Policy where
  id : Nat
  selectors : List SelectorEntry
  destinationCIDRs : List CIDR
  excludedCIDRs : List CIDR
  gateways : List GatewaySpec

/-- An endpoint: stable unique identifier, IP, hosting node (spec section 3). -/
structure PodInfo where
  uid : Nat
  ip : Nat
  labels : Labels
  nodeName : String

/-- An immutable snapshot of the cluster inventory (spec sections 5 and 9). -/
structure Snapshot where
  pods : List PodInfo
  nodes : List GatewayNode

/-- Modelled from the spec: the Selector Resolver's endpoint side — a pod is
selected when some selector entry's pod selector matches it and, when a node
selector is present, the pod's hosting node matches it (spec section 4.1). -/
def resolveEndpoints (p : Policy) (s : Snapshot) : List PodInfo :=
  s.pods.filter (fun pod =>
    p.selectors.any (fun e =>
      matchesSelector e.podSelector pod.labels &&
      (e.nodeSelector.elim true (fun ns =>
        s.nodes.any (fun n => n.name == pod.nodeName && matchesSelector ns n.labels)))))

/-- The node whose name is lexicographically first in the list. -/
def lexFirst : List GatewayNode → Option GatewayNode
  | [] => none
  | n :: ns =>
    match lexFirst ns with
    | none => some n
    | some m => some (if m.name < n.name then m else n)

/-- Modelled from the spec: each gateway specification's node selector is
resolved against the node inventory; with several matches the
lexicographically first node name is chosen (spec section 4.1). -/
def resolveGatewayNode (sel : Selector) (nodes : List GatewayNode) : Option GatewayNode :=
  lexFirst (nodes.filter (fun n => matchesSelector sel n.labels))

/-- Modelled from the spec: the ordered gateway-node set of a policy — one
resolved node per gateway-spec list entry, entries whose selector matches
nothing contributing none (spec section 4.1). -/
def resolvedGateways (p : Policy) (s : Snapshot) : List (GatewaySpec × GatewayNode) :=
  p.gateways.filterMap (fun g =>
    (resolveGatewayNode g.nodeSelector s.nodes).map (fun n => (g, n)))

/-- Modelled from the spec: Gateway Assignment — a pure deterministic
function of the endpoint's stable identifier and the ordered gateway-node
set: the identifier indexes into the ordered list (spec section 4.2). -/
def gatewayAssignment (uid : Nat) (gws : List (GatewaySpec × GatewayNode)) :
    Option (GatewaySpec × GatewayNode) :=
  gws[uid % gws.length]?

/-- The error taxonomy of resolution (spec section 7). -/
inductive EgressError
  | selectorResolutionError
  | conflictingEgressIPConfig
  | noEgressIPAvailable
  | noMatchingGatewayNode
deriving DecidableEq

/-- Whether an IP address is bound to some interface of a node. -/
def ipBound (node : GatewayNode) (ip : Nat) : Bool :=
  node.interfaces.any (fun i => i.v4.contains ip || i.v6.contains ip)

/-- Find a node's interface by name. -/
def findIface (node : GatewayNode) (nm : String) : Option Iface :=
  node.interfaces.find? (fun i => i.name == nm)

/-- Modelled from the spec: the Egress IP Resolver (spec section 4.3).
With both egress IP and interface set the spec is invalid; with an explicit
egress IP the IP must be bound to some interface of the node, otherwise
resolution fails with no-egress-IP-available; with an explicit interface the
first IPv4 and first IPv6 address of that interface are used; with neither,
the first IPv4 and first IPv6 address of the default-route interface. -/
def resolveEgressIP (node : GatewayNode) (g : GatewaySpec) :
    Except EgressError (Option Nat × Option Nat) :=
  match g.egressIP, g.interface with
  | some _, some _ => .error .conflictingEgressIPConfig
  | some ip, none =>
    if node.interfaces.any (fun i => i.v4.contains ip) then .ok (some ip, none)
    else if node.interfaces.any (fun i => i.v6.contains ip) then .ok (none, some ip)
    else .error .noEgressIPAvailable
  | none, some nm =>
    match findIface node nm with
    | some i => .ok (i.v4.head?, i.v6.head?)
    | none => .error .noEgressIPAvailable
  | none, none =>
    match findIface node node.defaultRouteIface with
    | some i => .ok (i.v4.head?, i.v6.head?)
    | none => .error .noEgressIPAvailable

/-- What a gateway node does with traffic matching a policy. -/
inductive ForwardDecision
  | forward (v4 v6 : Option Nat)
  | drop
deriving DecidableEq

/-- Modelled from the spec: when egress IP resolution fails, the gateway node
drops the policy's matching traffic instead of forwarding it with an invalid
source (spec sections 4.3 and 7: resolution fails closed). -/
def gatewayNodeBehavior (node : GatewayNode) (g : GatewaySpec) : ForwardDecision :=
  match resolveEgressIP node g with
  | .ok (a, b) => .forward a b
  | .error _ => .drop

/-- A desired table row as the Reconciler computes it, before per-node
materialisation: source IP, destination CIDR, resolved egress IP, the
resolved gateway node's name and its internal IP. -/
structure Row where
  source : Nat
  destCIDR : CIDR
  egressIP : Nat
  gatewayName : String
  gatewayIP : Nat
deriving DecidableEq

/-- The unit of installed state on one node: source IP, destination CIDR,
egress IP, gateway internal IP (spec section 3). -/
structure PolicyEntry where
  source : Nat
  destCIDR : CIDR
  egressIP : Nat
  gatewayIP : Nat
deriving DecidableEq

/-- A policy's gateway configuration is invalid when some gateway spec sets
both an explicit egress IP and an explicit interface (spec sections 3 and 4.3). -/
def invalidGatewayConfig (p : Policy) : Bool :=
  p.gateways.any (fun g => g.egressIP.isSome && g.interface.isSome)

/-- Modelled from the spec: the rows one endpoint contributes — its assigned
gateway's resolved egress IP paired with every destination CIDR of the
policy (spec section 2, data flow).  An endpoint with no assigned gateway
(empty gateway set) contributes no rows: its traffic is dropped. -/
def endpointRows (p : Policy) (gws : List (GatewaySpec × GatewayNode))
    (ep : PodInfo) : List Row :=
  match gatewayAssignment ep.uid gws with
  | none => []
  | some (gs, gn) =>
    match resolveEgressIP gn gs with
    | .error _ => []
    | .ok (v4, _) =>
      p.destinationCIDRs.map (fun dc =>
        { source := ep.ip, destCIDR := dc, egressIP := v4.getD 0,
          gatewayName := gn.name, gatewayIP := gn.internalIP })

/-- Whether egress IP resolution fails for the gateway assigned to an
endpoint (an unassigned endpoint is the valid "drop" outcome, not an error:
spec section 4.5). -/
def endpointResolutionFailed (gws : List (GatewaySpec × GatewayNode))
    (ep : PodInfo) : Bool :=
  match gatewayAssignment ep.uid gws with
  | none => false
  | some (gs, gn) =>
    match resolveEgressIP gn gs with
    | .error _ => true
    | .ok _ => false

/-- Modelled from the spec: the Reconciler's desired rows for a policy.  A
configuration error (conflicting egress IP / interface) or any egress IP
resolution failure excludes the policy entirely — no partial entries are
published for a failed policy (spec sections 4.3 and 4.5). -/
def desiredRows (p : Policy) (s : Snapshot) : List Row :=
  if invalidGatewayConfig p then []
  else
    let gws := resolvedGateways p s
    let eps := resolveEndpoints p s
    if eps.any (endpointResolutionFailed gws) then []
    else (eps.map (endpointRows p gws)).flatten

/-- Modelled from the spec: the entries installed on one node — every desired
row is replicated to every node, with the egress IP populated only on the
node that is itself the row's resolved gateway and the unset sentinel 0
(0.0.0.0) on all others (spec sections 3 and 6). -/
def installedEntries (p : Policy) (s : Snapshot) (onNode : String) : List PolicyEntry :=
  (desiredRows p s).map (fun r =>
    { source := r.source, destCIDR := r.destCIDR,
      egressIP := if onNode == r.gatewayName then r.egressIP else 0,
      gatewayIP := r.gatewayIP })

/-- Modelled from the spec: the CIDR Matcher — a policy matches an endpoint
and destination address iff the endpoint is in the resolved endpoint set,
the destination is covered by some destination CIDR, by no excluded CIDR,
and is not cluster-internal (spec section 4.4). -/
def policyMatches (p : Policy) (s : Snapshot) (isClusterInternal : Nat → Bool)
    (e : PodInfo) (d : Nat) : Bool :=
  (resolveEndpoints p s).any (fun x => x.uid == e.uid) &&
  p.destinationCIDRs.any (fun c => c.covers d) &&
  !(p.excludedCIDRs.any (fun c => c.covers d)) &&
  !(isClusterInternal d)

end EgressGateway

namespace CheckCLI

/-- Embedding of `Test.WithFeatureRequirements`
(cilium-cli/connectivity/check/test.go): with an empty argument list the
requirements are returned unchanged; otherwise each target requirement is
appended only when not already present in the (growing) requirement list.
`α` stands for `features.Requirement`, a Go struct compared with `==`. -/
def withFeatureRequirements {α : Type} [DecidableEq α] (reqs t : List α) : List α :=
  if reqs.isEmpty then t
  else reqs.foldl (fun acc target => if target ∈ acc then acc else acc ++ [target]) t

/-- Embedding of `ExcludedCIDRsKind` (cilium-cli/connectivity/check/test.go). -/
inductive ExcludedCIDRsKind
  | noExcludedCIDRs
  | externalNodeExcludedCIDRs
deriving DecidableEq

/-- Embedding of the `ipv6Enabled` computation of
`Test.WithCiliumEgressGatewayPolicy`: the IPv6 feature is enabled and the
Cilium version is at least 1.18.0. -/
def egwIPv6Enabled (ipv6FeatureOn versionGE118 : Bool) : Bool :=
  ipv6FeatureOn && versionGE118

/-- Embedding of the excluded-CIDR construction of
`Test.WithCiliumEgressGatewayPolicy` (cilium-cli/connectivity/check/test.go):
starting from an empty list, for each IP of `NodesWithoutCiliumIPs`, an IP
that does not parse as IPv4 (`parsedIP.To4() == nil`, decided by the
`isIPv4` classifier) contributes `ip/128` only when IPv6 is enabled, and an
IPv4 address contributes `ip/32`; with `NoExcludedCIDRs` the list stays
empty. -/
def excludedCIDRsFor (conf : ExcludedCIDRsKind) (ipv6Enabled : Bool)
    (isIPv4 : String → Bool) (nodeIPs : List String) : List String :=
  match conf with
  | .noExcludedCIDRs => []
  | .externalNodeExcludedCIDRs =>
    nodeIPs.foldl (fun acc ip =>
      if !(isIPv4 ip) then
        (if ipv6Enabled then acc ++ [ip ++ "/128"] else acc)
      else acc ++ [ip ++ "/32"]) []

end CheckCLI

namespace EgressGateway

/-- C1: for every endpoint and destination address, if the destination is
covered by at least one of a policy's destination CIDRs and also by at least
one of its excluded CIDRs, the CIDR Matcher does not match the pair,
regardless of the relative mask lengths of the including and excluding
CIDRs. -/
theorem c1_exclusion_overrides_inclusion
    (p : Policy) (s : Snapshot) (internal : Nat → Bool) (e : PodInfo) (d : Nat)
    (_hdst : ∃ c ∈ p.destinationCIDRs, c.covers d = true)
    (hexc : ∃ c ∈ p.excludedCIDRs, c.covers d = true) :
    policyMatches p s internal e d = false := by
  have hC : p.excludedCIDRs.any (fun c => c.covers d) = true :=
    List.any_eq_true.mpr hexc
  simp [policyMatches, hC]

/-- Witness for C1 at the spec's own scenario: destination CIDR 10.1.0.0/16,
excluded CIDR 10.1.2.0/24, destination 10.1.2.5. -/
theorem c1_exclusion_overrides_inclusion_witness :
    policyMatches
      { id := 1, selectors := [],
        destinationCIDRs := [{ width := 32, addr := 167837696, maskLen := 16 }],
        excludedCIDRs := [{ width := 32, addr := 167838208, maskLen := 24 }],
        gateways := [] }
      { pods := [], nodes := [] } (fun _ => false)
      { uid := 7, ip := 1, labels := [], nodeName := "node1" } 167838213 = false :=
  c1_exclusion_overrides_inclusion _ _ _ _ _
    ⟨{ width := 32, addr := 167837696, maskLen := 16 }, by decide, by decide⟩
    ⟨{ width := 32, addr := 167838208, maskLen := 24 }, by decide, by decide⟩

/-- C2: Gateway Assignment is a pure function of the pair (endpoint stable
identifier, ordered gateway-node set): equal pairs give equal results, and a
nonempty gateway set yields exactly one assigned gateway. -/
theorem c2_gateway_assignment_deterministic
    (u₁ u₂ : Nat) (g₁ g₂ : List (GatewaySpec × GatewayNode))
    (hu : u₁ = u₂) (hg : g₁ = g₂) :
    gatewayAssignment u₁ g₁ = gatewayAssignment u₂ g₂ ∧
    (g₁ ≠ [] → ∃ g, gatewayAssignment u₁ g₁ = some g) := by
  subst hu; subst hg
  refine ⟨rfl, fun hne => ?_⟩
  have hlt : u₁ % g₁.length < g₁.length :=
    Nat.mod_lt _ (List.length_pos.mpr hne)
  exact ⟨g₁[u₁ % g₁.length], List.getElem?_eq_getElem hlt⟩

/-- Witness for C2: two invocations on the same concrete (uid, gateway set). -/
theorem c2_gateway_assignment_deterministic_witness :
    (gatewayAssignment 5
        [({ nodeSelector := [], egressIP := none, interface := none },
          { name := "node2", labels := [], interfaces := [],
            defaultRouteIface := "eth0", internalIP := 12 })] =
      gatewayAssignment 5
        [({ nodeSelector := [], egressIP := none, interface := none },
          { name := "node2", labels := [], interfaces := [],
            defaultRouteIface := "eth0", internalIP := 12 })]) ∧
    ([({ nodeSelector := [], egressIP := none, interface := none },
        { name := "node2", labels := [], interfaces := [],
          defaultRouteIface := "eth0", internalIP := 12 })] ≠
        ([] : List (GatewaySpec × GatewayNode)) →
      ∃ g, gatewayAssignment 5
        [({ nodeSelector := [], egressIP := none, interface := none },
          { name := "node2", labels := [], interfaces := [],
            defaultRouteIface := "eth0", internalIP := 12 })] = some g) :=
  c2_gateway_assignment_deterministic 5 5 _ _ rfl rfl

end EgressGateway

namespace EgressGateway

/-- C3: a gateway spec with both an explicit egress IP and an explicit
interface name makes the entire policy invalid: it produces zero installed
entries on every node. -/
theorem c3_conflicting_spec_yields_no_entries
    (p : Policy) (s : Snapshot) (onNode : String) (g : GatewaySpec)
    (hg : g ∈ p.gateways) (hip : g.egressIP.isSome = true)
    (hif : g.interface.isSome = true) :
    installedEntries p s onNode = [] := by
  have hinv : invalidGatewayConfig p = true :=
    List.any_eq_true.mpr ⟨g, hg, by simp [hip, hif]⟩
  simp [installedEntries, desiredRows, hinv]

/-- Witness for C3: a policy whose single gateway spec sets both an egress
IP and an interface installs nothing. -/
theorem c3_conflicting_spec_yields_no_entries_witness :
    installedEntries
      { id := 1, selectors := [],
        destinationCIDRs := [{ width := 32, addr := 0, maskLen := 0 }],
        excludedCIDRs := [],
        gateways := [{ nodeSelector := [], egressIP := some 9, interface := some "eth1" }] }
      { pods := [{ uid := 3, ip := 4, labels := [], nodeName := "node1" }],
        nodes := [{ name := "node2", labels := [], interfaces := [],
                    defaultRouteIface := "eth0", internalIP := 12 }] }
      "node1" = [] :=
  c3_conflicting_spec_yields_no_entries _ _ _
    { nodeSelector := [], egressIP := some 9, interface := some "eth1" }
    (by decide) rfl rfl

/-- C4: a policy whose gateway-node set resolves to the empty set installs
no entries on any node — its matching traffic is dropped cluster-wide, with
no fallback row. -/
theorem c4_empty_gateway_set_yields_no_entries
    (p : Policy) (s : Snapshot) (onNode : String)
    (h : resolvedGateways p s = []) :
    installedEntries p s onNode = [] := by
  have hrows : desiredRows p s = [] := by
    simp only [desiredRows, h]
    by_cases hc : invalidGatewayConfig p = true
    · simp [hc]
    · have hfail : (resolveEndpoints p s).any (endpointResolutionFailed []) = false :=
        List.any_eq_false.mpr (fun ep _ hx => by
          simp [endpointResolutionFailed, gatewayAssignment] at hx)
      simp only [hc, if_false, hfail, Bool.false_eq_true]
      refine List.flatten_eq_nil_iff.mpr ?_
      intro l hl
      rcases List.mem_map.mp hl with ⟨ep, _, rfl⟩
      rfl
  simp [installedEntries, hrows]

/-- Witness for C4: a policy whose gateway node selector matches no node in
the inventory installs nothing. -/
theorem c4_empty_gateway_set_yields_no_entries_witness :
    installedEntries
      { id := 1, selectors := [{ podSelector := [], nodeSelector := none }],
        destinationCIDRs := [{ width := 32, addr := 0, maskLen := 0 }],
        excludedCIDRs := [],
        gateways := [{ nodeSelector := [.eqv "egress-node" "true"],
                       egressIP := none, interface := none }] }
      { pods := [{ uid := 3, ip := 4, labels := [], nodeName := "node1" }],
        nodes := [{ name := "node1", labels := [], interfaces := [],
                    defaultRouteIface := "eth0", internalIP := 11 }] }
      "node1" = [] :=
  c4_empty_gateway_set_yields_no_entries _ _ _ (by decide)

end EgressGateway

namespace EgressGateway

/-- C5: every installed entry replicates a desired row with the egress IP
field holding the resolved egress address exactly when the holding node is
the row's resolved gateway node and the unset sentinel 0 (0.0.0.0)
otherwise, while the source IP, destination CIDR and gateway internal IP of
the entry at each position are identical on every pair of nodes. -/
theorem c5_egress_ip_only_on_gateway
    (p : Policy) (s : Snapshot) (n n₁ n₂ : String) (i : Nat) :
    (installedEntries p s n)[i]? = ((desiredRows p s)[i]?).map (fun r =>
      { source := r.source, destCIDR := r.destCIDR,
        egressIP := if n = r.gatewayName then r.egressIP else 0,
        gatewayIP := r.gatewayIP }) ∧
    ((installedEntries p s n₁)[i]?).map PolicyEntry.source =
      ((installedEntries p s n₂)[i]?).map PolicyEntry.source ∧
    ((installedEntries p s n₁)[i]?).map PolicyEntry.destCIDR =
      ((installedEntries p s n₂)[i]?).map PolicyEntry.destCIDR ∧
    ((installedEntries p s n₁)[i]?).map PolicyEntry.gatewayIP =
      ((installedEntries p s n₂)[i]?).map PolicyEntry.gatewayIP := by
  refine ⟨?_, ?_, ?_, ?_⟩ <;>
  · simp only [installedEntries, List.getElem?_map, Option.map_map]
    cases (desiredRows p s)[i]? with
    | none => rfl
    | some r => simp [Function.comp, beq_iff_eq]

end EgressGateway

namespace EgressGateway

/-- Splitting the bound-IP check into its IPv4 and IPv6 parts. -/
theorem ipBound_split (node : GatewayNode) (ip : Nat) :
    ipBound node ip =
      (node.interfaces.any (fun i => i.v4.contains ip) ||
       node.interfaces.any (fun i => i.v6.contains ip)) := by
  unfold ipBound
  generalize node.interfaces = l
  induction l with
  | nil => rfl
  | cons a t ih =>
    rw [List.any_cons, List.any_cons, List.any_cons, ih]
    cases a.v4.contains ip <;> cases a.v6.contains ip <;> simp

/-- C6: with an explicit egress IP, resolution succeeds exactly when the IP
is bound to some interface of the gateway node; otherwise it fails with
no-egress-IP-available and the gateway node drops the policy's matching
traffic. -/
theorem c6_explicit_egress_ip
    (node : GatewayNode) (sel : Selector) (ip : Nat) :
    ((∃ r, resolveEgressIP node
        { nodeSelector := sel, egressIP := some ip, interface := none } = .ok r) ↔
      ipBound node ip = true) ∧
    (ipBound node ip = false →
      resolveEgressIP node
          { nodeSelector := sel, egressIP := some ip, interface := none } =
        .error .noEgressIPAvailable ∧
      gatewayNodeBehavior node
          { nodeSelector := sel, egressIP := some ip, interface := none } = .drop) := by
  have hok : ipBound node ip = true →
      ∃ r, resolveEgressIP node
        { nodeSelector := sel, egressIP := some ip, interface := none } = .ok r := by
    intro hb
    rw [ipBound_split] at hb
    cases hA : node.interfaces.any (fun i => i.v4.contains ip) with
    | true =>
      exact ⟨(some ip, none), by
        simp only [resolveEgressIP]
        rw [hA]
        simp⟩
    | false =>
      have hB : node.interfaces.any (fun i => i.v6.contains ip) = true := by
        rw [hA] at hb
        simpa using hb
      exact ⟨(none, some ip), by
        simp only [resolveEgressIP]
        rw [hA, hB]
        simp⟩
  have herr : ipBound node ip = false →
      resolveEgressIP node
          { nodeSelector := sel, egressIP := some ip, interface := none } =
        .error .noEgressIPAvailable := by
    intro hb
    rw [ipBound_split] at hb
    rcases Bool.or_eq_false_iff.mp hb with ⟨hA, hB⟩
    simp only [resolveEgressIP]
    rw [hA, hB]
    simp
  refine ⟨⟨?_, hok⟩, fun hf => ⟨herr hf, ?_⟩⟩
  · rintro ⟨r, hr⟩
    cases hB : ipBound node ip with
    | true => rfl
    | false =>
      rw [herr hB] at hr
      exact absurd hr (by simp)
  · simp [gatewayNodeBehavior, herr hf]

/-- Witness for C6: on a gateway node with no interface carrying the IP,
resolution fails with no-egress-IP-available and the node drops. -/
theorem c6_explicit_egress_ip_witness :
    resolveEgressIP
        { name := "node2", labels := [], interfaces := [],
          defaultRouteIface := "eth0", internalIP := 12 }
        { nodeSelector := [], egressIP := some 5, interface := none } =
      .error .noEgressIPAvailable ∧
    gatewayNodeBehavior
        { name := "node2", labels := [], interfaces := [],
          defaultRouteIface := "eth0", internalIP := 12 }
        { nodeSelector := [], egressIP := some 5, interface := none } = .drop :=
  (c6_explicit_egress_ip
    { name := "node2", labels := [], interfaces := [],
      defaultRouteIface := "eth0", internalIP := 12 } [] 5).2 (by decide)

/-- C7: with neither an explicit egress IP nor an explicit interface set,
the resolver returns the first IPv4 and the first IPv6 address bound to the
interface associated with the node's default route. -/
theorem c7_default_route_first_addresses
    (node : GatewayNode) (sel : Selector) (i : Iface)
    (h : findIface node node.defaultRouteIface = some i) :
    resolveEgressIP node { nodeSelector := sel, egressIP := none, interface := none } =
      .ok (i.v4.head?, i.v6.head?) := by
  simp [resolveEgressIP, h]

/-- Witness for C7: first addresses of the default-route interface. -/
theorem c7_default_route_first_addresses_witness :
    resolveEgressIP
        { name := "node2", labels := [],
          interfaces := [{ name := "eth0", v4 := [10, 11], v6 := [20] }],
          defaultRouteIface := "eth0", internalIP := 12 }
        { nodeSelector := [], egressIP := none, interface := none } =
      .ok (some 10, some 20) :=
  c7_default_route_first_addresses _ [] { name := "eth0", v4 := [10, 11], v6 := [20] }
    (by decide)

/-- The lexicographically-first pick is a member achieving the minimum name. -/
theorem lexFirst_spec (l : List GatewayNode) (hne : l ≠ []) :
    ∃ g, lexFirst l = some g ∧ g ∈ l ∧ ∀ m ∈ l, g.name ≤ m.name := by
  induction l with
  | nil => exact absurd rfl hne
  | cons n ns ih =>
    by_cases h : ns = []
    · subst h
      refine ⟨n, rfl, List.mem_singleton.mpr rfl, ?_⟩
      intro m hm
      rcases List.mem_singleton.mp hm with rfl
      exact le_refl _
    · rcases ih h with ⟨m, hm_eq, hm_mem, hm_min⟩
      by_cases hlt : m.name < n.name
      · refine ⟨m, by simp [lexFirst, hm_eq, hlt], List.mem_cons_of_mem _ hm_mem, ?_⟩
        intro k hk
        rcases List.mem_cons.mp hk with rfl | hk'
        · exact le_of_lt hlt
        · exact hm_min k hk'
      · refine ⟨n, by simp [lexFirst, hm_eq, hlt], List.mem_cons_self _ _, ?_⟩
        intro k hk
        rcases List.mem_cons.mp hk with rfl | hk'
        · exact le_refl _
        · exact le_trans (le_of_not_lt hlt) (hm_min k hk')

/-- C8: when a gateway spec's node selector matches more than one node of
the inventory, the Selector Resolver chooses exactly a matching node whose
name is lexicographically least among all matching node names. -/
theorem c8_lexicographically_first_node
    (sel : Selector) (nodes : List GatewayNode)
    (h : 1 < (nodes.filter (fun n => matchesSelector sel n.labels)).length) :
    ∃ g, resolveGatewayNode sel nodes = some g ∧
      g ∈ nodes.filter (fun n => matchesSelector sel n.labels) ∧
      ∀ m ∈ nodes.filter (fun n => matchesSelector sel n.labels), g.name ≤ m.name := by
  have hne : nodes.filter (fun n => matchesSelector sel n.labels) ≠ [] := by
    intro hx
    rw [hx] at h
    simp at h
  exact lexFirst_spec _ hne

/-- Witness for C8: two matching nodes, the lexicographically first name wins. -/
theorem c8_lexicographically_first_node_witness :
    ∃ g, resolveGatewayNode [LabelReq.eqv "egress" "true"]
        ([{ name := "nodeB", labels := [("egress", "true")], interfaces := [],
            defaultRouteIface := "eth0", internalIP := 1 },
          { name := "nodeA", labels := [("egress", "true")], interfaces := [],
            defaultRouteIface := "eth0", internalIP := 2 }] : List GatewayNode) = some g ∧
      g ∈ ([{ name := "nodeB", labels := [("egress", "true")], interfaces := [],
              defaultRouteIface := "eth0", internalIP := 1 },
            { name := "nodeA", labels := [("egress", "true")], interfaces := [],
              defaultRouteIface := "eth0", internalIP := 2 }] : List GatewayNode).filter
            (fun n => matchesSelector [LabelReq.eqv "egress" "true"] n.labels) ∧
      ∀ m ∈ ([{ name := "nodeB", labels := [("egress", "true")], interfaces := [],
                defaultRouteIface := "eth0", internalIP := 1 },
              { name := "nodeA", labels := [("egress", "true")], interfaces := [],
                defaultRouteIface := "eth0", internalIP := 2 }] : List GatewayNode).filter
              (fun n => matchesSelector [LabelReq.eqv "egress" "true"] n.labels),
        g.name ≤ m.name :=
  c8_lexicographically_first_node [LabelReq.eqv "egress" "true"]
    ([{ name := "nodeB", labels := [("egress", "true")], interfaces := [],
        defaultRouteIface := "eth0", internalIP := 1 },
      { name := "nodeA", labels := [("egress", "true")], interfaces := [],
        defaultRouteIface := "eth0", internalIP := 2 }] : List GatewayNode)
    (by decide)

end EgressGateway

namespace CheckCLI

/-- The requirement-appending step keeps a duplicate-free list duplicate-free. -/
theorem wfr_foldl_nodup {α : Type} [DecidableEq α] :
    ∀ (reqs t : List α), t.Nodup →
      (reqs.foldl (fun acc target => if target ∈ acc then acc else acc ++ [target]) t).Nodup := by
  intro reqs
  induction reqs with
  | nil => intro t h; exact h
  | cons r rs ih =>
    intro t h
    rw [List.foldl_cons]
    by_cases hr : r ∈ t
    · rw [if_pos hr]
      exact ih t h
    · rw [if_neg hr]
      refine ih _ (List.Nodup.append h (List.nodup_singleton r) ?_)
      intro a ha har
      rcases List.mem_singleton.mp har with rfl
      exact hr ha

/-- Elements of the accumulator survive the requirement-appending fold. -/
theorem wfr_foldl_mem_of_mem {α : Type} [DecidableEq α] :
    ∀ (reqs t : List α) (x : α), x ∈ t →
      x ∈ reqs.foldl (fun acc target => if target ∈ acc then acc else acc ++ [target]) t := by
  intro reqs
  induction reqs with
  | nil => intro t x hx; exact hx
  | cons r rs ih =>
    intro t x hx
    rw [List.foldl_cons]
    by_cases hr : r ∈ t
    · rw [if_pos hr]; exact ih t x hx
    · rw [if_neg hr]; exact ih _ x (List.mem_append_left _ hx)

/-- Every argument requirement ends up in the folded requirement list. -/
theorem wfr_foldl_mem_of_arg {α : Type} [DecidableEq α] :
    ∀ (reqs t : List α) (x : α), x ∈ reqs →
      x ∈ reqs.foldl (fun acc target => if target ∈ acc then acc else acc ++ [target]) t := by
  intro reqs
  induction reqs with
  | nil => intro t x hx; exact absurd hx (List.not_mem_nil x)
  | cons r rs ih =>
    intro t x hx
    rw [List.foldl_cons]
    rcases List.mem_cons.mp hx with rfl | hx'
    · by_cases hr : x ∈ t
      · rw [if_pos hr]
        exact wfr_foldl_mem_of_mem rs t x hr
      · rw [if_neg hr]
        exact wfr_foldl_mem_of_mem rs _ x (List.mem_append_right _ (List.mem_singleton.mpr rfl))
    · by_cases hr : r ∈ t
      · rw [if_pos hr]; exact ih t x hx'
      · rw [if_neg hr]; exact ih _ x hx'

/-- When every argument requirement is already present, the fold is the identity. -/
theorem wfr_foldl_fixed {α : Type} [DecidableEq α] :
    ∀ (reqs t : List α), (∀ x ∈ reqs, x ∈ t) →
      reqs.foldl (fun acc target => if target ∈ acc then acc else acc ++ [target]) t = t := by
  intro reqs
  induction reqs with
  | nil => intro t _; rfl
  | cons r rs ih =>
    intro t h
    rw [List.foldl_cons, if_pos (h r (List.mem_cons_self r rs))]
    exact ih t (fun x hx => h x (List.mem_cons_of_mem r hx))

/-- C9: `Test.WithFeatureRequirements` never introduces duplicates — a
duplicate-free requirement list stays duplicate-free — and applying it twice
with the same argument list leaves the requirements identical to applying it
once. -/
theorem c9_with_feature_requirements_nodup_idempotent
    {α : Type} [DecidableEq α] (reqs t : List α) (h : t.Nodup) :
    (withFeatureRequirements reqs t).Nodup ∧
    withFeatureRequirements reqs (withFeatureRequirements reqs t) =
      withFeatureRequirements reqs t := by
  unfold withFeatureRequirements
  by_cases hemp : reqs.isEmpty = true
  · simp [hemp, h]
  · simp only [hemp, if_neg, Bool.false_eq_true, if_false]
    refine ⟨wfr_foldl_nodup reqs t h, ?_⟩
    exact wfr_foldl_fixed reqs _ (fun x hx => wfr_foldl_mem_of_arg reqs t x hx)

/-- Witness for C9 on a concrete requirement list with an overlap and an
internal duplicate. -/
theorem c9_with_feature_requirements_nodup_idempotent_witness :
    (withFeatureRequirements [1, 2, 2] [2, 3]).Nodup ∧
    withFeatureRequirements [1, 2, 2] (withFeatureRequirements [1, 2, 2] [2, 3]) =
      withFeatureRequirements [1, 2, 2] ([2, 3] : List Nat) :=
  c9_with_feature_requirements_nodup_idempotent [1, 2, 2] [2, 3] (by decide)

/-- The excluded-CIDR fold, with an arbitrary accumulator, appends one
formatted CIDR per contributing address. -/
theorem excludedCIDRs_foldl (ipv6Enabled : Bool) (isIPv4 : String → Bool) :
    ∀ (ips : List String) (acc : List String),
      ips.foldl (fun acc ip =>
        if !(isIPv4 ip) then
          (if ipv6Enabled then acc ++ [ip ++ "/128"] else acc)
        else acc ++ [ip ++ "/32"]) acc =
      acc ++ ips.filterMap (fun ip =>
        if isIPv4 ip then some (ip ++ "/32")
        else if ipv6Enabled then some (ip ++ "/128") else none) := by
  intro ips
  induction ips with
  | nil => intro acc; simp
  | cons ip rest ih =>
    intro acc
    rw [List.foldl_cons, List.filterMap_cons, ih]
    cases h4 : isIPv4 ip with
    | true => simp
    | false =>
      cases h6 : ipv6Enabled with
      | true => simp
      | false => simp

/-- C10: with `ExternalNodeExcludedCIDRs`, the produced excluded-CIDR list
holds exactly one `ip/32` entry per IPv4 address of the external-node IPs
and one `ip/128` entry per non-IPv4 address exactly when the IPv6 feature is
on and the Cilium version is at least 1.18.0 (otherwise those addresses are
skipped); with `NoExcludedCIDRs` the list is empty. -/
theorem c10_excluded_cidrs
    (ipv6On verGE118 : Bool) (isIPv4 : String → Bool) (ips : List String) :
    excludedCIDRsFor .externalNodeExcludedCIDRs (egwIPv6Enabled ipv6On verGE118) isIPv4 ips =
      ips.filterMap (fun ip =>
        if isIPv4 ip then some (ip ++ "/32")
        else if ipv6On && verGE118 then some (ip ++ "/128") else none) ∧
    excludedCIDRsFor .noExcludedCIDRs (egwIPv6Enabled ipv6On verGE118) isIPv4 ips = [] := by
  refine ⟨?_, rfl⟩
  unfold excludedCIDRsFor egwIPv6Enabled
  rw [excludedCIDRs_foldl]
  simp

end CheckCLI
